import Mathlib

/-!
Verification of the earthquake-monitor dashboard core logic.

The definitions below are a shallow embedding of the TypeScript source:
the filter in src/App.tsx (filteredEarthquakes), the fetch hook in
src/hooks/useEarthquakes.ts (fetchEarthquakes), and the derivation
utilities getMagnitudeColor, getMagnitudeLevel and getTimeAgo.

Modelling conventions: JavaScript numbers that hold magnitudes are
modelled as rationals, timestamps as integers, strings as Lean strings
(lists of characters).  A JavaScript value that may be null or undefined
is an Option.  JavaScript coerces null to 0 in a numeric comparison, so
the comparison mag >= minMagnitude on a possibly-null magnitude is
embedded as (mag.getD 0) comparison; Math.floor of an integer division
is Int.fdiv.
-/

/-- One seismic event, as decoded from the feed.  The repository file
src/types/earthquake.ts declaring this shape lists further metadata
fields (updated, tsunami, felt, coordinates, ...) that no verified
operation reads; only the fields read by the filter, the sort and the
presentation logic under verification are carried here. -/
structure EarthquakeProperties where
  mag : Option ℚ
  place : Option String
  time : ℤ
  deriving DecidableEq

/-- A feed feature: identity plus its properties. -/
structure Earthquake where
  id : String
  properties : EarthquakeProperties
  deriving DecidableEq

/-- JavaScript String.prototype.toLowerCase on a list of characters
(basic-latin lowering, the alphabet of every string this app compares). -/
def jsToLower (s : List Char) : List Char := s.map Char.toLower

/-- JavaScript String.prototype.includes: does the second list occur as a
contiguous run inside the first? -/
def jsIncludes (hay : List Char) (pat : List Char) : Bool :=
  match hay with
  | [] => pat.isEmpty
  | c :: rest => pat.isPrefixOf (c :: rest) || jsIncludes rest pat

/-- The filter of src/App.tsx lines 24-34 (filteredEarthquakes): keep an
event iff matchesSearch and matchesMagnitude, where
matchesSearch = place?.toLowerCase().includes(searchTerm.toLowerCase()) ?? false
and matchesMagnitude = mag >= minMagnitude. -/
def applyFilter (events : List Earthquake) (searchTerm : String) (minMagnitude : ℚ) :
    List Earthquake :=
  events.filter fun earthquake =>
    (match earthquake.properties.place with
     | some p => jsIncludes (jsToLower p.data) (jsToLower searchTerm.data)
     | none => false)
    && decide (earthquake.properties.mag.getD 0 ≥ minMagnitude)

/-- getMagnitudeColor from the magnitude utilities file. -/
def getMagnitudeColor (magnitude : ℚ) : String :=
  if magnitude ≥ 7 then "text-red-600 bg-red-100"
  else if magnitude ≥ 5.5 then "text-orange-600 bg-orange-100"
  else if magnitude ≥ 4 then "text-yellow-600 bg-yellow-100"
  else if magnitude ≥ 2.5 then "text-blue-600 bg-blue-100"
  else "text-green-600 bg-green-100"

/-- getMagnitudeLevel from the magnitude utilities file. -/
def getMagnitudeLevel (magnitude : ℚ) : String :=
  if magnitude ≥ 7 then "Major"
  else if magnitude ≥ 5.5 then "Strong"
  else if magnitude ≥ 4 then "Moderate"
  else if magnitude ≥ 2.5 then "Minor"
  else "Micro"

/-- getTimeAgo from the date utilities file.  The wall clock Date.now()
is passed explicitly as the first argument. -/
def getTimeAgo (now timestamp : ℤ) : String :=
  let diff := now - timestamp
  let minutes := diff.fdiv (1000 * 60)
  let hours := diff.fdiv (1000 * 60 * 60)
  let days := diff.fdiv (1000 * 60 * 60 * 24)
  if minutes < 60 then
    toString minutes ++ " minute" ++ (if minutes ≠ 1 then "s" else "") ++ " ago"
  else if hours < 24 then
    toString hours ++ " hour" ++ (if hours ≠ 1 then "s" else "") ++ " ago"
  else
    toString days ++ " day" ++ (if days ≠ 1 then "s" else "") ++ " ago"

/-- The comparator passed to Array.prototype.sort in useEarthquakes.ts:
(a, b) => b.properties.time - a.properties.time, i.e. descending time. -/
def timeDesc (a b : Earthquake) : Prop := b.properties.time ≤ a.properties.time

instance : DecidableRel timeDesc := fun a b =>
  inferInstanceAs (Decidable (b.properties.time ≤ a.properties.time))

instance : IsTotal Earthquake timeDesc :=
  ⟨fun a b => le_total b.properties.time a.properties.time⟩

instance : IsTrans Earthquake timeDesc :=
  ⟨fun _ _ _ h1 h2 => le_trans h2 h1⟩

/-- data.features.sort((a, b) => b.properties.time - a.properties.time):
a stable sort by descending time (JavaScript Array.sort is stable). -/
def sortByTimeDesc (features : List Earthquake) : List Earthquake :=
  features.insertionSort timeDesc

/-- The possible outcomes of the awaited fetch in useEarthquakes.ts:
a decoded payload, a non-ok HTTP status (response.ok false), or a
transport failure whose Error carries a message. -/
inductive FetchOutcome where
  | ok (features : List Earthquake)
  | httpError (status : ℕ)
  | transportError (msg : String)
  deriving DecidableEq

/-- The React state owned by the useEarthquakes hook. -/
structure HookState where
  earthquakes : List Earthquake
  loading : Bool
  error : Option String
  lastUpdated : Option ℤ
  deriving DecidableEq

/-- The display message the catch branch stores for a failing outcome:
the thrown Error message for a non-ok status, or the transport message. -/
def outcomeErrorMessage : FetchOutcome → Option String
  | FetchOutcome.ok _ => none
  | FetchOutcome.httpError status => some ("HTTP error! status: " ++ toString status)
  | FetchOutcome.transportError msg => some msg

/-- One run of fetchEarthquakes in useEarthquakes.ts, as a state
transformer: loading is set true and error cleared on entry, then on
success the sorted features replace the store and lastUpdated is set to
the current time; on failure only the error message is stored.  The
finally branch sets loading false.  Net effect per outcome: -/
def fetchEarthquakes (s : HookState) (outcome : FetchOutcome) (now : ℤ) : HookState :=
  match outcome with
  | FetchOutcome.ok features =>
      { s with loading := false, error := none,
               earthquakes := sortByTimeDesc features,
               lastUpdated := some now }
  | FetchOutcome.httpError status =>
      { s with loading := false,
               error := some ("HTTP error! status: " ++ toString status) }
  | FetchOutcome.transportError msg =>
      { s with loading := false, error := some msg }

/-! ## Spec-side predicates and helper lemmas for the filter -/

/-- jsIncludes decides contiguous containment. -/
theorem jsIncludes_iff (hay pat : List Char) : jsIncludes hay pat = true ↔ pat <:+: hay := by
  induction hay with
  | nil =>
      simp [jsIncludes, List.isEmpty_iff, List.infix_nil]
  | cons c rest ih =>
      simp [jsIncludes, List.infix_cons_iff, ih, List.isPrefixOf_iff_prefix]

/-- Bool-level restatement of jsIncludes_iff. -/
theorem jsIncludes_eq_decide (hay pat : List Char) :
    jsIncludes hay pat = decide (pat <:+: hay) := by
  by_cases h : pat <:+: hay
  · simp [h, jsIncludes_iff]
  · have hx : jsIncludes hay pat = false := by
      rw [← Bool.not_eq_true, jsIncludes_iff]
      exact h
    simp [hx, h]

/-- Spec wording for the search predicate of the Filter/Query Engine:
the place is present and, case-insensitively, contains the search term. -/
def placeMatches (place : Option String) (searchTerm : String) : Prop :=
  match place with
  | none => False
  | some p => jsToLower searchTerm.data <:+: jsToLower p.data

instance placeMatches.dec (place : Option String) (searchTerm : String) :
    Decidable (placeMatches place searchTerm) :=
  match place with
  | none => isFalse fun h => h
  | some p => inferInstanceAs (Decidable (jsToLower searchTerm.data <:+: jsToLower p.data))

/-- Spec wording for the keep predicate of the Filter/Query Engine:
matchesSearch and matchesMagnitude, an absent magnitude treated as 0. -/
def specKeep (e : Earthquake) (searchTerm : String) (minMagnitude : ℚ) : Prop :=
  placeMatches e.properties.place searchTerm ∧ minMagnitude ≤ e.properties.mag.getD 0

instance specKeep.dec (e : Earthquake) (s : String) (m : ℚ) : Decidable (specKeep e s m) :=
  inferInstanceAs
    (Decidable (placeMatches e.properties.place s ∧ m ≤ e.properties.mag.getD 0))

/-! ## Concrete events used by the filter claims -/

/-- An event whose place is absent (the feed may return place null). -/
def demoAbsentPlace : Earthquake :=
  { id := "a", properties := { mag := some 5, place := none, time := 0 } }

/-- Scenario event: magnitude 6.0, place "Tokyo Bay". -/
def evTokyoBay : Earthquake :=
  { id := "e1", properties := { mag := some 6, place := some "Tokyo Bay", time := 0 } }

/-- Scenario event: magnitude 2.0, place "" (the empty string). -/
def evEmptyPlace : Earthquake :=
  { id := "e2", properties := { mag := some 2, place := some "", time := 0 } }

/-- Scenario event: magnitude 4.5 (written mkRat 9 2), place "Near Tokyo". -/
def evNearTokyo : Earthquake :=
  { id := "e3", properties := { mag := some (mkRat 9 2), place := some "Near Tokyo", time := 0 } }

/-- The magnitude of evNearTokyo is the decimal 4.5 of the scenario. -/
theorem evNearTokyo_mag : (mkRat 9 2 : ℚ) = 4.5 := by
  norm_num [mkRat, Rat.normalize]

/-- The three-event feed of the end-to-end scenario. -/
def scenarioEvents : List Earthquake := [evTokyoBay, evEmptyPlace, evNearTokyo]

/-! ## Claims about the Filter/Query Engine -/

/-- C1 (counterexample): applyFilter(events, "", 0) is not the identity.
An event whose place is absent is dropped even by the vacuous filter,
because the optional chain place?.toLowerCase().includes(...) short
circuits to undefined and the ?? false coalescing makes matchesSearch
false before the empty search term is ever compared. -/
theorem vacuous_filter_not_identity :
    applyFilter [demoAbsentPlace] "" 0 ≠ [demoAbsentPlace] := by decide

/-- C1 (amended): applyFilter(events, "", 0) returns, in input order,
exactly the events whose place is present and whose magnitude (absent
treated as 0) is nonnegative; an event with an absent place is dropped
even by the vacuous filter. -/
theorem vacuous_filter_keeps_present_places (events : List Earthquake) :
    applyFilter events "" 0
      = events.filter fun e =>
          e.properties.place.isSome && decide ((0:ℚ) ≤ e.properties.mag.getD 0) := by
  unfold applyFilter
  refine List.filter_congr fun e _ => ?_
  rcases hp : e.properties.place with _ | p
  · simp [hp]
  · have h0 : jsToLower ("" : String).data = [] := rfl
    simp [hp, h0, jsIncludes_eq_decide, List.nil_infix, ge_iff_le]

/-- C2 (counterexample): on the scenario feed (magnitudes 6.0, 2.0, 4.5
and places "Tokyo Bay", "", "Near Tokyo"), filtering with search term
"tokyo" and minimum magnitude 3 does not yield exactly one event: the
6.0 event survives too, since its place "Tokyo Bay" does contain
"tokyo" case-insensitively. -/
theorem scenario_filter_not_single :
    (applyFilter scenarioEvents "tokyo" 3).length ≠ 1 := by decide

/-- C2 (amended): the scenario filter yields exactly the two events with
magnitude 6.0 / place "Tokyo Bay" and magnitude 4.5 / place
"Near Tokyo", in feed order; only the 2.0 event is excluded (its empty
place does not contain "tokyo", and its magnitude is below 3). -/
theorem scenario_filter_yields_two :
    applyFilter scenarioEvents "tokyo" 3 = [evTokyoBay, evNearTokyo] := by decide

/-- C3: applyFilter keeps exactly the events whose place is present and
case-insensitively contains the search term and whose magnitude (absent
treated as 0) is at least the minimum magnitude, and the survivors keep
their input order: the output is literally List.filter of the spec
predicate, hence also a sublist of the input (stable, no re-sort). -/
theorem applyFilter_keeps_exactly_specKeep (events : List Earthquake) (searchTerm : String)
    (minMagnitude : ℚ) :
    applyFilter events searchTerm minMagnitude
        = events.filter (fun e => decide (specKeep e searchTerm minMagnitude))
      ∧ (applyFilter events searchTerm minMagnitude).Sublist events := by
  have h : applyFilter events searchTerm minMagnitude
      = events.filter (fun e => decide (specKeep e searchTerm minMagnitude)) := by
    unfold applyFilter
    refine List.filter_congr fun e _ => ?_
    rcases hp : e.properties.place with _ | p
    · simp [specKeep, placeMatches, hp]
    · simp [specKeep, placeMatches, hp, jsIncludes_eq_decide, ge_iff_le]
  refine ⟨h, ?_⟩
  rw [h]
  exact List.filter_sublist _

/-- C4: with a non-empty search term, no event with an absent place
survives the filter (in fact none survives for any term). -/
theorem applyFilter_no_absent_place (events : List Earthquake) (searchTerm : String)
    (minMagnitude : ℚ) (hterm : searchTerm ≠ "") :
    ∀ e ∈ applyFilter events searchTerm minMagnitude, e.properties.place ≠ none := by
  intro e he hnone
  unfold applyFilter at he
  rw [List.mem_filter] at he
  rcases he with ⟨_, hkeep⟩
  rw [hnone] at hkeep
  simp at hkeep

/-- Witness for C4 at a concrete non-empty search term and feed. -/
theorem applyFilter_no_absent_place_witness :
    ("x" : String) ≠ ""
      ∧ ∀ e ∈ applyFilter [demoAbsentPlace] "x" 0, e.properties.place ≠ none :=
  ⟨by decide, applyFilter_no_absent_place [demoAbsentPlace] "x" 0 (by decide)⟩

/-! ## Claims about the Feed Client -/

/-- Bridge from getD to get at an in-range index. -/
theorem getD_eq_get_of_lt (l : List Earthquake) (n : ℕ) (hn : n < l.length) (d : Earthquake) :
    l.getD n d = l.get ⟨n, hn⟩ := by
  simp [List.getD_eq_getElem?_getD, List.getElem?_eq_getElem hn]

/-- C5: after a successful fetch, the stored (and returned) event list is
sorted descending by time: each element's time is at least the next
element's time. -/
theorem fetch_store_sorted_desc (s : HookState) (features : List Earthquake) (now : ℤ)
    (i : ℕ)
    (h : i + 1 < ((fetchEarthquakes s (FetchOutcome.ok features) now).earthquakes).length) :
    (((fetchEarthquakes s (FetchOutcome.ok features) now).earthquakes).getD (i + 1)
        demoAbsentPlace).properties.time
      ≤ (((fetchEarthquakes s (FetchOutcome.ok features) now).earthquakes).getD i
        demoAbsentPlace).properties.time := by
  have hst : (fetchEarthquakes s (FetchOutcome.ok features) now).earthquakes
      = sortByTimeDesc features := rfl
  rw [hst] at h ⊢
  have h1 : i < (sortByTimeDesc features).length := Nat.lt_of_succ_lt h
  rw [getD_eq_get_of_lt _ _ h, getD_eq_get_of_lt _ _ h1]
  have hs : (sortByTimeDesc features).Sorted timeDesc :=
    List.sorted_insertionSort timeDesc features
  exact hs.rel_get_of_lt (Fin.mk_lt_mk.mpr (Nat.lt_succ_self i))

/-- Two events with distinct times, for the C5 witness feed. -/
def evEarly : Earthquake :=
  { id := "w1", properties := { mag := some 1, place := some "A", time := 10 } }

def evLate : Earthquake :=
  { id := "w2", properties := { mag := some 1, place := some "B", time := 20 } }

/-- A concrete hook state holding one previously fetched batch. -/
def demoState : HookState :=
  { earthquakes := [evTokyoBay], loading := false, error := none, lastUpdated := some 1 }

/-- Witness for C5 on a concrete two-event feed arriving out of order. -/
theorem fetch_store_sorted_desc_witness :
    0 + 1 < ((fetchEarthquakes demoState (FetchOutcome.ok [evEarly, evLate]) 7).earthquakes).length
      ∧ (((fetchEarthquakes demoState (FetchOutcome.ok [evEarly, evLate]) 7).earthquakes).getD
            (0 + 1) demoAbsentPlace).properties.time
          ≤ (((fetchEarthquakes demoState (FetchOutcome.ok [evEarly, evLate]) 7).earthquakes).getD
            0 demoAbsentPlace).properties.time :=
  ⟨by decide, fetch_store_sorted_desc demoState [evEarly, evLate] 7 0 (by decide)⟩

/-- C6: a failing fetch (non-ok HTTP status or transport failure) stores
the human-readable message of outcomeErrorMessage, and leaves the
previously stored batch and its lastUpdated stamp untouched. -/
theorem failed_fetch_keeps_batch (s : HookState) (outcome : FetchOutcome) (now : ℤ)
    (hfail : ∀ features, outcome ≠ FetchOutcome.ok features) :
    (fetchEarthquakes s outcome now).error = outcomeErrorMessage outcome
      ∧ (fetchEarthquakes s outcome now).error ≠ none
      ∧ (fetchEarthquakes s outcome now).earthquakes = s.earthquakes
      ∧ (fetchEarthquakes s outcome now).lastUpdated = s.lastUpdated := by
  cases outcome with
  | ok features => exact absurd rfl (hfail features)
  | httpError status =>
      exact ⟨rfl, fun hc => Option.noConfusion hc, rfl, rfl⟩
  | transportError msg =>
      exact ⟨rfl, fun hc => Option.noConfusion hc, rfl, rfl⟩

/-- Witness for C6 at a concrete state and a 500 status. -/
theorem failed_fetch_keeps_batch_witness :
    (∀ features, FetchOutcome.httpError 500 ≠ FetchOutcome.ok features)
      ∧ ((fetchEarthquakes demoState (FetchOutcome.httpError 500) 7).error
            = outcomeErrorMessage (FetchOutcome.httpError 500)
          ∧ (fetchEarthquakes demoState (FetchOutcome.httpError 500) 7).error ≠ none
          ∧ (fetchEarthquakes demoState (FetchOutcome.httpError 500) 7).earthquakes
            = demoState.earthquakes
          ∧ (fetchEarthquakes demoState (FetchOutcome.httpError 500) 7).lastUpdated
            = demoState.lastUpdated) :=
  ⟨fun _ hc => FetchOutcome.noConfusion hc,
   failed_fetch_keeps_batch demoState (FetchOutcome.httpError 500) 7
     fun _ hc => FetchOutcome.noConfusion hc⟩

/-! ## Claims about the Derivation Utilities: severity tiers and colors -/

/-- C7: the severity tiers partition the magnitude line at the fixed
thresholds 7, 5.5, 4 and 2.5, each inclusive at the upper tier; in
particular 6.9 is Strong and 7.0 is Major. -/
theorem severity_tiers (m : ℚ) :
    (getMagnitudeLevel m = "Major" ↔ 7 ≤ m)
    ∧ (getMagnitudeLevel m = "Strong" ↔ 5.5 ≤ m ∧ m < 7)
    ∧ (getMagnitudeLevel m = "Moderate" ↔ 4 ≤ m ∧ m < 5.5)
    ∧ (getMagnitudeLevel m = "Minor" ↔ 2.5 ≤ m ∧ m < 4)
    ∧ (getMagnitudeLevel m = "Micro" ↔ m < 2.5)
    ∧ getMagnitudeLevel (6.9 : ℚ) = "Strong"
    ∧ getMagnitudeLevel (7 : ℚ) = "Major" := by
  refine ⟨?_, ?_, ?_, ?_, ?_, ?_, ?_⟩
  · unfold getMagnitudeLevel
    split_ifs with h1 h2 h3 h4
    · exact iff_of_true rfl h1
    · exact iff_of_false (by decide) h1
    · exact iff_of_false (by decide) h1
    · exact iff_of_false (by decide) h1
    · exact iff_of_false (by decide) h1
  · unfold getMagnitudeLevel
    split_ifs with h1 h2 h3 h4
    · exact iff_of_false (by decide) fun hc => absurd h1 (not_le.mpr hc.2)
    · exact iff_of_true rfl ⟨h2, not_le.mp h1⟩
    · exact iff_of_false (by decide) fun hc => h2 hc.1
    · exact iff_of_false (by decide) fun hc => h2 hc.1
    · exact iff_of_false (by decide) fun hc => h2 hc.1
  · unfold getMagnitudeLevel
    split_ifs with h1 h2 h3 h4
    · exact iff_of_false (by decide)
        fun hc => absurd h1 (not_le.mpr (hc.2.trans_le (by norm_num)))
    · exact iff_of_false (by decide) fun hc => absurd h2 (not_le.mpr hc.2)
    · exact iff_of_true rfl ⟨h3, not_le.mp h2⟩
    · exact iff_of_false (by decide) fun hc => h3 hc.1
    · exact iff_of_false (by decide) fun hc => h3 hc.1
  · unfold getMagnitudeLevel
    split_ifs with h1 h2 h3 h4
    · exact iff_of_false (by decide)
        fun hc => absurd h1 (not_le.mpr (hc.2.trans_le (by norm_num)))
    · exact iff_of_false (by decide)
        fun hc => absurd h2 (not_le.mpr (hc.2.trans_le (by norm_num)))
    · exact iff_of_false (by decide) fun hc => absurd h3 (not_le.mpr hc.2)
    · exact iff_of_true rfl ⟨h4, not_le.mp h3⟩
    · exact iff_of_false (by decide) fun hc => h4 hc.1
  · unfold getMagnitudeLevel
    split_ifs with h1 h2 h3 h4
    · exact iff_of_false (by decide) (not_lt.mpr ((by norm_num : (2.5:ℚ) ≤ 7).trans h1))
    · exact iff_of_false (by decide) (not_lt.mpr ((by norm_num : (2.5:ℚ) ≤ 5.5).trans h2))
    · exact iff_of_false (by decide) (not_lt.mpr ((by norm_num : (2.5:ℚ) ≤ 4).trans h3))
    · exact iff_of_false (by decide) (not_lt.mpr h4)
    · exact iff_of_true rfl (not_le.mp h4)
  · unfold getMagnitudeLevel
    rw [if_neg (by norm_num), if_pos (by norm_num)]
  · unfold getMagnitudeLevel
    rw [if_pos (by norm_num)]

/-- The tier index shared by the color and the level tables: which of
the five threshold regions a magnitude falls in. -/
def tierIdx (m : ℚ) : Fin 5 :=
  if m ≥ 7 then 0 else if m ≥ 5.5 then 1 else if m ≥ 4 then 2 else if m ≥ 2.5 then 3 else 4

/-- The five color tokens, one per tier. -/
def tierColor : Fin 5 → String
  | 0 => "text-red-600 bg-red-100"
  | 1 => "text-orange-600 bg-orange-100"
  | 2 => "text-yellow-600 bg-yellow-100"
  | 3 => "text-blue-600 bg-blue-100"
  | 4 => "text-green-600 bg-green-100"

/-- The five tier names, one per tier. -/
def tierLevel : Fin 5 → String
  | 0 => "Major"
  | 1 => "Strong"
  | 2 => "Moderate"
  | 3 => "Minor"
  | 4 => "Micro"

/-- getMagnitudeColor is the color table applied to the tier index. -/
theorem getMagnitudeColor_eq_tier (m : ℚ) : getMagnitudeColor m = tierColor (tierIdx m) := by
  unfold getMagnitudeColor tierIdx
  split_ifs <;> rfl

/-- getMagnitudeLevel is the level table applied to the tier index. -/
theorem getMagnitudeLevel_eq_tier (m : ℚ) : getMagnitudeLevel m = tierLevel (tierIdx m) := by
  unfold getMagnitudeLevel tierIdx
  split_ifs <;> rfl

/-- C8: color choice and severity tier are the same partition of the
magnitude line: two magnitudes share a color token iff they share a
tier name; there are exactly five pairwise distinct color tokens, and
every magnitude is assigned one of them. -/
theorem color_level_same_partition (m1 m2 : ℚ) :
    (getMagnitudeColor m1 = getMagnitudeColor m2
        ↔ getMagnitudeLevel m1 = getMagnitudeLevel m2)
      ∧ (List.ofFn tierColor).Nodup
      ∧ getMagnitudeColor m1 ∈ List.ofFn tierColor := by
  have hc : ∀ i j : Fin 5, tierColor i = tierColor j ↔ i = j := by decide
  have hl : ∀ i j : Fin 5, tierLevel i = tierLevel j ↔ i = j := by decide
  refine ⟨?_, by decide, ?_⟩
  · rw [getMagnitudeColor_eq_tier, getMagnitudeColor_eq_tier,
      getMagnitudeLevel_eq_tier, getMagnitudeLevel_eq_tier, hc, hl]
  · rw [getMagnitudeColor_eq_tier]
    exact (List.mem_ofFn tierColor _).mpr ⟨tierIdx m1, rfl⟩

/-! ## Claims about the Derivation Utilities: relative age text -/

/-- The relative-age contract restated from the spec wording: the age
(difference from the wall clock) is expressed in whole minutes when
under 60 minutes, else in whole hours when under 24 hours, else in
whole days, with singular and plural noun agreement. -/
def specRelativeAge (now timestamp : ℤ) : String :=
  let diff := now - timestamp
  if diff < 3600000 then
    let minutes := diff.fdiv 60000
    toString minutes ++ " minute" ++ (if minutes ≠ 1 then "s" else "") ++ " ago"
  else if diff < 86400000 then
    let hours := diff.fdiv 3600000
    toString hours ++ " hour" ++ (if hours ≠ 1 then "s" else "") ++ " ago"
  else
    let days := diff.fdiv 86400000
    toString days ++ " day" ++ (if days ≠ 1 then "s" else "") ++ " ago"

/-- C9: for a timestamp not later than the wall clock, getTimeAgo meets
the spec contract specRelativeAge, and on the two quoted ages it yields
"1 minute ago" (90000 ms) and "2 hours ago" (7200000 ms). -/
theorem relativeAge_correct (now timestamp : ℤ) (h : timestamp ≤ now) :
    getTimeAgo now timestamp = specRelativeAge now timestamp
      ∧ getTimeAgo 90000 0 = "1 minute ago"
      ∧ getTimeAgo 7200000 0 = "2 hours ago" := by
  refine ⟨?_, by decide, by decide⟩
  have hd : 0 ≤ now - timestamp := by omega
  simp only [getTimeAgo, specRelativeAge]
  have e1 : (now - timestamp).fdiv (1000 * 60) = (now - timestamp) / 60000 := by
    rw [Int.fdiv_eq_ediv _ (by norm_num)]
    norm_num
  have e2 : (now - timestamp).fdiv (1000 * 60 * 60) = (now - timestamp) / 3600000 := by
    rw [Int.fdiv_eq_ediv _ (by norm_num)]
    norm_num
  have e3 : (now - timestamp).fdiv (1000 * 60 * 60 * 24) = (now - timestamp) / 86400000 := by
    rw [Int.fdiv_eq_ediv _ (by norm_num)]
    norm_num
  have f1 : (now - timestamp).fdiv 60000 = (now - timestamp) / 60000 :=
    Int.fdiv_eq_ediv _ (by norm_num)
  have f2 : (now - timestamp).fdiv 3600000 = (now - timestamp) / 3600000 :=
    Int.fdiv_eq_ediv _ (by norm_num)
  have f3 : (now - timestamp).fdiv 86400000 = (now - timestamp) / 86400000 :=
    Int.fdiv_eq_ediv _ (by norm_num)
  rw [e1, e2, e3, f1, f2, f3]
  by_cases h1 : now - timestamp < 3600000
  · rw [if_pos (show (now - timestamp) / 60000 < 60 by omega), if_pos h1]
  · by_cases h2 : now - timestamp < 86400000
    · rw [if_neg (show ¬ (now - timestamp) / 60000 < 60 by omega),
        if_pos (show (now - timestamp) / 3600000 < 24 by omega), if_neg h1, if_pos h2]
    · rw [if_neg (show ¬ (now - timestamp) / 60000 < 60 by omega),
        if_neg (show ¬ (now - timestamp) / 3600000 < 24 by omega), if_neg h1, if_neg h2]

/-- Witness for C9 at the quoted concrete ages. -/
theorem relativeAge_correct_witness :
    (0 : ℤ) ≤ 90000
      ∧ (getTimeAgo 90000 0 = specRelativeAge 90000 0
          ∧ getTimeAgo 90000 0 = "1 minute ago"
          ∧ getTimeAgo 7200000 0 = "2 hours ago") :=
  ⟨by decide, relativeAge_correct 90000 0 (by decide)⟩

/-- C10: an age of at least 0 and under one minute is rendered as the
zero count with the plural noun, "0 minutes ago". -/
theorem under_minute_zero_minutes (now timestamp : ℤ)
    (h0 : 0 ≤ now - timestamp) (h1 : now - timestamp < 60000) :
    getTimeAgo now timestamp = "0 minutes ago" := by
  simp only [getTimeAgo]
  have e1 : (now - timestamp).fdiv (1000 * 60) = 0 := by
    rw [Int.fdiv_eq_ediv _ (by norm_num)]
    omega
  rw [e1, if_pos (by norm_num : (0:ℤ) < 60)]
  decide

/-- Witness for C10 at an age of 30 seconds. -/
theorem under_minute_zero_minutes_witness :
    (0 : ℤ) ≤ 30000 - 0 ∧ (30000 : ℤ) - 0 < 60000 ∧ getTimeAgo 30000 0 = "0 minutes ago" :=
  ⟨by decide, by decide, under_minute_zero_minutes 30000 0 (by decide) (by decide)⟩
